import Mathlib

/-
Verification development for the Claim-AI-Assistant repository.

The repository contains two copies of the FastAPI application:
  * src/backend/main1.py   (namespace Backend below), and
  * src/data/main.py       (namespace DataApp below),
together with the shared service modules src/backend/rag_service.py and
src/backend/models.py.  External capabilities (the Gemini LLM, the FAISS
vector store, the PostgreSQL connection) are modelled as oracles: values or
functions supplied to the embedded code, returning Except values where the
Python call can raise.  Everything else is translated directly from the
Python source.
-/

/- ===================== Python string primitives ===================== -/

/-- List-level model of Python str.strip with no arguments: remove leading
and trailing whitespace characters. -/
def stripList (l : List Char) : List Char :=
  ((l.dropWhile Char.isWhitespace).reverse.dropWhile Char.isWhitespace).reverse

/-- Model of Python s.strip (used on every llm .content in both variants). -/
def pyStrip (s : String) : String :=
  ⟨stripList s.data⟩

/-- The backtick character, written via its code point. -/
def backtickChar : Char := Char.ofNat 96

/-- Model of Python s.replace (c, empty string): delete every occurrence of
the single character c. -/
def pyRemoveChar (c : Char) (s : String) : String :=
  ⟨s.data.filter (fun x => x != c)⟩

/-- Sanitization applied to the generated query text in both variants
(src/backend/main1.py line 147, src/data/main.py line 134):
content.strip().replace(backtick, "").replace(";", ""). -/
def sanitizeSQL (s : String) : String :=
  pyRemoveChar ';' (pyRemoveChar backtickChar (pyStrip s))

/-- The literal routing marker checked by both variants. -/
def sqlMarker : String := "SQL"

/-- Routing decision of both variants (main1.py line 145, main.py line 131):
decision = response.content.strip(); branch on (marker in decision), i.e. a
substring test on the stripped classification response. -/
def routedStructured (raw : String) : Bool :=
  decide (sqlMarker.data <:+: (pyStrip raw).data)

/- ===================== RAG service (src/backend/rag_service.py) ===================== -/

/-- External similarity-search capability: FAISS index built by
FAISS.from_texts; similarity_search (k fixed at 3) may raise, hence Except.
The fallible external call is the whole content of this type. -/
def VectorStore : Type := String → Except String (List String)

/-- State of the RAGService singleton: the vector_store attribute,
initialized to None in RAGService.__init__ (rag_service.py line 20). -/
structure RAGService where
  vector_store : Option VectorStore

/-- Model of RAGService.generate_summary_from_dataframe (rag_service.py
lines 38-46): the summary prompt embeds df.head().to_string(), i.e. only the
first five rows of the dataframe, and the LLM is invoked on that prompt.
The oracle llm stands for the composite prompt-building + invoke call, so it
receives exactly the rows that flow into the prompt. -/
def generate_summary_from_dataframe (llm : List (String × List (String × String)) → String)
    (df : List (String × List (String × String))) : String :=
  llm (df.take 5)

/-- Model of RAGService.create_vector_store_from_text (rag_service.py lines
48-53): split the text and build a fresh FAISS index, assigning it to
self.vector_store (wholesale replacement).  The oracle build stands for the
composite splitter + FAISS.from_texts capability. -/
def create_vector_store_from_text (build : String → VectorStore)
    (_r : RAGService) (text : String) : RAGService :=
  ⟨some (build text)⟩

/-- Sentinel returned by query_vector_store when no index exists
(rag_service.py line 57). -/
def noKnowledgeBaseMsg : String :=
  "No knowledge base has been created yet. Please upload data first."

/-- Model of RAGService.query_vector_store (rag_service.py lines 55-60):
if self.vector_store is None return the sentinel; otherwise run
similarity_search (k=3) and join the page contents with newlines. -/
def query_vector_store (r : RAGService) (q : String) : Except String String :=
  match r.vector_store with
  | none => Except.ok noKnowledgeBaseMsg
  | some vs =>
    match vs q with
    | Except.error e => Except.error e
    | Except.ok docs => Except.ok (String.intercalate "\n" docs)

/-- Model of RAGService.clear_vector_store (rag_service.py lines 62-64):
self.vector_store = None. -/
def clear_vector_store (_r : RAGService) : RAGService :=
  ⟨none⟩

/- ===================== Stream events ===================== -/

/-- A query-result row: dict(row) for a row of the SQLAlchemy result proxy. -/
abbrev Row : Type := List (String × String)

/-- Discriminated union of the stream events emitted on /api/chat, one
constructor per "type" tag appearing in the two stream_generator bodies. -/
inductive Event where
  | thinking (content : String)
  | sql_generated (content : String)
  | query_result (data : List Row)
  | semantic_search (content : String)
  | summarizing (content : String)
  | final_summary_chunk (content : String)
  | done (content : String)
  | error (content : String)
deriving DecidableEq

/-- Terminal event kinds of the stream protocol. -/
def Event.isTerminal : Event → Bool
  | Event.done _ => true
  | Event.error _ => true
  | _ => false

/-- Recognizer for the structured-path progress events. -/
def Event.isStructuredProgress : Event → Bool
  | Event.sql_generated _ => true
  | Event.query_result _ => true
  | _ => false

/-- Error event content: f-string "An error occurred: {str(e)}" used by the
except blocks of both variants. -/
def errMsg (e : String) : String := "An error occurred: " ++ e

/-- Single-quote character, used inside Python f-strings. -/
def squote : String := ⟨[Char.ofNat 39]⟩

/-- Content of the thinking event of src/data/main.py line 127. -/
def thinkingMsg (decision : String) : String :=
  "Decision: " ++ squote ++ decision ++ squote ++ ". Proceeding with chosen method..."

/-- Content of the semantic_search event of src/data/main.py line 144. -/
def semanticMsg : String := "Searching knowledge base for insights..."

/-- Content of the summarizing event of src/data/main.py line 148. -/
def summarizingMsg : String := "Generating final response..."

/- ===================== Chat request oracles ===================== -/

/-- External capabilities consumed by one chat request.  Each llm.invoke /
llm.astream / db.execute call site gets the value the capability would
return there; Except.error models the call raising.  synthChunks are the
chunk contents produced by llm.astream before it either finishes
(synthErr = none) or raises (synthErr = some e). -/
structure ChatOracle where
  routerResp : Except String String
  sqlResp : Except String String
  db : String → Except String (List Row)
  synthChunks : List String
  synthErr : Option String

/-- Observable outcome of running one stream_generator to completion:
the events yielded in order, the exception escaping the generator
uncaught (if any), and the arguments of the db.execute calls made. -/
structure ChatResult where
  events : List Event
  crash : Option String
  dbCalls : List String

/-- Shared tail of both generators: the incremental synthesis loop
(final_summary accumulator, one final_summary_chunk event per chunk,
then one done event; an exception mid-stream is caught by the enclosing
except and becomes one error event after the chunks already yielded). -/
def synthTail (o : ChatOracle) (pre : List Event) (calls : List String) : ChatResult :=
  let chunkEvs := o.synthChunks.map Event.final_summary_chunk
  match o.synthErr with
  | some e => ⟨pre ++ chunkEvs ++ [Event.error (errMsg e)], none, calls⟩
  | none =>
    let final_summary := o.synthChunks.foldl (fun acc c => acc ++ c) ""
    ⟨pre ++ chunkEvs ++ [Event.done final_summary], none, calls⟩

namespace Backend

/-- Model of stream_generator in src/backend/main1.py lines 134-192.  The
whole body, the router call included, sits inside one try/except, so every
exception becomes a single error event; no progress events are emitted. -/
def stream_generator (o : ChatOracle) (rag : RAGService) (q : String) : ChatResult :=
  match o.routerResp with
  | Except.error e => ⟨[Event.error (errMsg e)], none, []⟩
  | Except.ok raw =>
    if routedStructured raw then
      match o.sqlResp with
      | Except.error e => ⟨[Event.error (errMsg e)], none, []⟩
      | Except.ok s =>
        let generated_sql := sanitizeSQL s
        match o.db generated_sql with
        | Except.error e => ⟨[Event.error (errMsg e)], none, [generated_sql]⟩
        | Except.ok _data => synthTail o [] [generated_sql]
    else
      match query_vector_store rag q with
      | Except.error e => ⟨[Event.error (errMsg e)], none, []⟩
      | Except.ok _ctx => synthTail o [] []

end Backend

namespace DataApp

/-- Model of stream_generator in src/data/main.py lines 117-160.  The router
call and the thinking event sit before the try block, so an exception there
escapes the generator uncaught; inside the try the structured branch yields
sql_generated then query_result, the semantic branch yields semantic_search,
and both fall through to a summarizing event and the synthesis loop. -/
def stream_generator (o : ChatOracle) (rag : RAGService) (q : String) : ChatResult :=
  match o.routerResp with
  | Except.error e => ⟨[], some e, []⟩
  | Except.ok raw =>
    let decision := pyStrip raw
    let thinkingEv := Event.thinking (thinkingMsg decision)
    if routedStructured raw then
      match o.sqlResp with
      | Except.error e => ⟨[thinkingEv, Event.error (errMsg e)], none, []⟩
      | Except.ok s =>
        let generated_sql := sanitizeSQL s
        match o.db generated_sql with
        | Except.error e =>
          ⟨[thinkingEv, Event.sql_generated generated_sql, Event.error (errMsg e)],
            none, [generated_sql]⟩
        | Except.ok d =>
          synthTail o
            [thinkingEv, Event.sql_generated generated_sql, Event.query_result d,
              Event.summarizing summarizingMsg]
            [generated_sql]
    else
      let semEv := Event.semantic_search semanticMsg
      match query_vector_store rag q with
      | Except.error e => ⟨[thinkingEv, semEv, Event.error (errMsg e)], none, []⟩
      | Except.ok _ctx =>
        synthTail o [thinkingEv, semEv, Event.summarizing summarizingMsg] []

end DataApp

/- ===================== Structured store (claims table) ===================== -/

/-- The non-identifier columns of a claims row (policy_number, claim_date,
claim_amount, claim_status, claim_type, settlement_amount, processing_days,
diagnosis_code, provider_id from src/backend/models.py), kept as an
association list of column name to serialized value. -/
abbrev Fields : Type := List (String × String)

/-- One record of an uploaded batch: the claim_id primary key together with
the non-identifier fields. -/
abbrev ClaimRecord : Type := String × Fields

/-- The claims table: a sequence of rows.  models.py declares claim_id as
the primary key, so a well-formed table has pairwise distinct ids. -/
abbrev Store : Type := List ClaimRecord

/-- Identifier column of a store. -/
def idsOf (s : Store) : List String := s.map Prod.fst

/-- Read the non-identifier fields of the row with the given id. -/
def lookupId (s : Store) (i : String) : Option Fields :=
  (s.find? (fun r => r.1 == i)).map Prod.snd

/-- Effect of one row of the INSERT ... ON CONFLICT (claim_id) DO UPDATE
statement built in src/backend/main1.py lines 86-92: when the id is already
present, every non-identifier column of that row is overwritten with the
excluded values; otherwise the row is appended. -/
def upsertRow (store : Store) (r : ClaimRecord) : Store :=
  if store.any (fun row => row.1 == r.1) then
    store.map (fun row => if row.1 == r.1 then (row.1, r.2) else row)
  else store ++ [r]

/-- Row-wise application of upserts: each record applied in order.  For a
batch whose claim_ids are pairwise distinct this is the effect of the single
multi-row statement of main1.py; across several statements it is their
sequential composition.  A single statement whose batch repeats a claim_id
does not behave like this fold — Postgres rejects it — so the duplicate
guard lives in upsertApply, which is what the upload loop actually runs. -/
def upsertBatch (store : Store) (recs : List ClaimRecord) : Store :=
  recs.foldl upsertRow store

/-- Effect of the one multi-row INSERT ... ON CONFLICT (claim_id) DO UPDATE
statement issued per batch by main1.py lines 86-94: when the batch itself
repeats a claim_id, Postgres raises the cardinality violation (ON CONFLICT
DO UPDATE cannot affect the same row a second time) and the statement fails
with nothing applied; otherwise every record of the batch is applied. -/
def upsertApply (store : Store) (recs : List ClaimRecord) : Except Unit Store :=
  if (idsOf recs).Nodup then Except.ok (upsertBatch store recs)
  else Except.error ()

/-- Effect of db.bulk_insert_mappings in src/data/main.py line 86: a plain
INSERT of every record; because models.py declares claim_id as the primary
key, inserting a record whose id is already present violates the key and
the statement raises (Except.error). -/
def bulkInsertBatch : Store → List ClaimRecord → Except Unit Store
  | store, [] => Except.ok store
  | store, r :: rest =>
    if store.any (fun row => row.1 == r.1) then Except.error ()
    else bulkInsertBatch (store ++ [r]) rest

/- ===================== Upload endpoint ===================== -/

/-- One uploaded file, after the await file.read / decode / pd.read_csv
step: either the rows it parses to, or Except.error when reading or parsing
raises. -/
structure FileInput where
  name : String
  parsed : Except Unit (List ClaimRecord)

/-- Observable outcome of one /api/upload request: the claims table, the
RAG singleton state, the processed-record count, and the HTTPException
detail when the request failed. -/
structure UploadResult where
  store : Store
  rag : RAGService
  count : Nat
  err : Option String

/-- Detail string of the HTTPException raised by both variants:
f-string "Error processing file {file.filename}.". -/
def uploadErrorMsg (name : String) : String :=
  "Error processing file " ++ name ++ "."

/-- Shared shape of the upload loop of src/backend/main1.py lines 73-111 and
src/data/main.py lines 72-103, parameterized by the per-batch database write
ab (upsertApply for Backend, bulkInsertBatch for DataApp).  Per file: parse;
append the parsed rows to all_files_df; write the batch and commit; on any
exception roll back (the store keeps only the batches committed so far) and
raise HTTPException naming the file.  After the loop, when all_files_df is
nonempty, regenerate the summary from it and rebuild the vector store.
main1.py skips the database write for an empty batch via an explicit
continue; for DataApp the branch is also exact since bulk-inserting zero
records changes nothing. -/
def uploadLoop (ab : Store → List ClaimRecord → Except Unit Store)
    (summarize : List ClaimRecord → String) (build : String → VectorStore)
    (rag : RAGService) :
    Store → Nat → List ClaimRecord → List FileInput → UploadResult
  | store, count, combined, [] =>
    if combined.isEmpty then ⟨store, rag, count, none⟩
    else
      ⟨store,
        create_vector_store_from_text build rag
          (generate_summary_from_dataframe summarize combined),
        count, none⟩
  | store, count, combined, f :: rest =>
    match f.parsed with
    | Except.error _ => ⟨store, rag, count, some (uploadErrorMsg f.name)⟩
    | Except.ok rows =>
      let combined' := combined ++ rows
      if rows.isEmpty then uploadLoop ab summarize build rag store count combined' rest
      else
        match ab store rows with
        | Except.error _ => ⟨store, rag, count, some (uploadErrorMsg f.name)⟩
        | Except.ok store' =>
          uploadLoop ab summarize build rag store' (count + rows.length) combined' rest

namespace Backend

/-- Model of upload_claims_data in src/backend/main1.py lines 69-111
(ON CONFLICT DO UPDATE upsert per batch). -/
def upload_claims_data (summarize : List ClaimRecord → String)
    (build : String → VectorStore) (rag : RAGService) (store : Store)
    (files : List FileInput) : UploadResult :=
  uploadLoop upsertApply summarize build rag store 0 [] files

end Backend

namespace DataApp

/-- Model of upload_claims_data in src/data/main.py lines 70-103
(plain bulk insert per batch). -/
def upload_claims_data (summarize : List ClaimRecord → String)
    (build : String → VectorStore) (rag : RAGService) (store : Store)
    (files : List FileInput) : UploadResult :=
  uploadLoop bulkInsertBatch summarize build rag store 0 [] files

end DataApp

/- ===================== Derived notions used in claim statements ===================== -/

/-- Exactly one terminal event, and the stream ends with it. -/
def terminalOk (evs : List Event) : Prop :=
  evs.countP Event.isTerminal = 1 ∧
    ∃ e, evs.getLast? = some e ∧ Event.isTerminal e = true

/-- Contents of the final_summary_chunk events of a stream, in order. -/
def chunkPayloads (evs : List Event) : List String :=
  evs.filterMap (fun e =>
    match e with
    | Event.final_summary_chunk c => some c
    | _ => none)

/-- Fields carried by the last record with the given id in a batch
sequence, if any: the value the spec expects an upsert sequence to leave
in the store. -/
def latestIn (recs : List ClaimRecord) (i : String) : Option Fields :=
  (recs.reverse.find? (fun r => r.1 == i)).map Prod.snd

/- ===================== Concrete instances used by witnesses and counterexamples ===================== -/

/-- Oracle for the C1 witness: a successful structured-path run. -/
def c1WitnessOracle : ChatOracle :=
  ⟨Except.ok "SQL", Except.ok "SELECT 1", fun _ => Except.ok [], ["a", "b"], none⟩

/-- Oracle for the C1 counterexample: the router invocation raises. -/
def c1CrashOracle : ChatOracle :=
  ⟨Except.error "boom", Except.ok "", fun _ => Except.ok [], [], none⟩

/-- Oracle for the C4 witness and counterexample: a fully successful
structured-path request. -/
def c4Oracle : ChatOracle :=
  ⟨Except.ok "SQL", Except.ok "SELECT COUNT(*) FROM claims",
    fun _ => Except.ok [[("count", "5")]], ["five"], none⟩

/-- Oracle for the C5 witness: classification answered SEMANTIC. -/
def c5Oracle : ChatOracle :=
  ⟨Except.ok "SEMANTIC", Except.ok "unused", fun _ => Except.ok [], ["w"], none⟩

/-- Oracle for the C8 witness: two chunks, successful synthesis. -/
def c8Oracle : ChatOracle :=
  ⟨Except.ok "SEMANTIC", Except.ok "unused", fun _ => Except.ok [], ["Hello ", "world"], none⟩

/-- Oracle for the C9 witness: generation output wrapped in backticks with a
trailing semicolon. -/
def c9Oracle : ChatOracle :=
  ⟨Except.ok "SQL", Except.ok " ```SELECT COUNT(*) FROM claims;``` ",
    fun _ => Except.ok [], ["w"], none⟩

/-- Concrete store and records for the C2 witness. -/
def c2Store : Store := [("A", [("claim_amount", "100")]), ("B", [("claim_amount", "7")])]

/-- Re-ingested record for claim A with a new amount. -/
def c2NewA : ClaimRecord := ("A", [("claim_amount", "250")])

/-- Summarizer stub used by the upload counterexamples and witnesses. -/
def stubSummarize : List ClaimRecord → String := fun rows => toString rows.length

/-- Vector-store builder stub used by the upload counterexamples and
witnesses. -/
def stubBuild : String → VectorStore := fun t => fun _ => Except.ok [t]

/-- Successfully processed first file for the C7 witness. -/
def c7Good : List FileInput := [⟨"a.csv", Except.ok [("A", [("claim_amount", "1")])]⟩]

/-- Second file that fails to parse. -/
def c7BadParse : FileInput := ⟨"bad.csv", Except.error ()⟩

/-- Second file whose batch re-uses id A, so the DataApp plain insert fails. -/
def c7DupFile : FileInput := ⟨"dup.csv", Except.ok [("A", [("claim_amount", "2")])]⟩

/- ===================== Helper lemmas: Python strip vs substring ===================== -/

/-- Dropping leading whitespace does not change whether a nonempty
whitespace-free pattern occurs as an infix. -/
lemma infix_dropWhile_iff (p : List Char) (hne : p ≠ [])
    (hws : ∀ c ∈ p, Char.isWhitespace c = false) (l : List Char) :
    p <:+: l.dropWhile Char.isWhitespace ↔ p <:+: l := by
  induction l with
  | nil => simp
  | cons a t ih =>
    rw [List.dropWhile_cons]
    by_cases h : Char.isWhitespace a
    · rw [if_pos h, ih]
      constructor
      · intro hp
        exact List.infix_cons_iff.mpr (Or.inr hp)
      · intro hp
        rcases List.infix_cons_iff.mp hp with hpre | hinf
        · cases p with
          | nil => exact absurd rfl hne
          | cons p0 ps =>
            rcases (List.cons_prefix_cons.mp hpre) with ⟨he, _⟩
            have := hws p0 (List.mem_cons_self p0 ps)
            rw [he, h] at this
            exact absurd this (by simp)
        · exact hinf
    · rw [if_neg h]

/-- Infixes of a reversed list are reverses of infixes. -/
lemma infix_reverse_iff (p l : List Char) : p <:+: l.reverse ↔ p.reverse <:+: l := by
  constructor
  · intro h
    simpa using h.reverse
  · intro h
    simpa using h.reverse

/-- Stripping leading and trailing whitespace does not change whether a
nonempty whitespace-free pattern occurs as an infix. -/
lemma infix_stripList_iff (p : List Char) (hne : p ≠ [])
    (hws : ∀ c ∈ p, Char.isWhitespace c = false) (l : List Char) :
    p <:+: stripList l ↔ p <:+: l := by
  have hner : p.reverse ≠ [] := by simpa using hne
  have hwsr : ∀ c ∈ p.reverse, Char.isWhitespace c = false := by
    intro c hc
    exact hws c (List.mem_reverse.mp hc)
  unfold stripList
  rw [infix_reverse_iff, infix_dropWhile_iff p.reverse hner hwsr,
    infix_reverse_iff, List.reverse_reverse,
    infix_dropWhile_iff p hne hws]

/-- The routing test of both variants is a plain substring test on the raw
classification response: stripping cannot create or destroy an occurrence
of the marker. -/
lemma routedStructured_iff_marker (raw : String) :
    routedStructured raw = true ↔ sqlMarker.data <:+: raw.data := by
  unfold routedStructured pyStrip
  rw [decide_eq_true_eq]
  exact infix_stripList_iff sqlMarker.data (by decide) (by decide) raw.data

/- ===================== Helper lemmas: stream shapes ===================== -/

lemma countP_terminal_chunkEvs (l : List String) :
    (l.map Event.final_summary_chunk).countP Event.isTerminal = 0 := by
  rw [List.countP_map]
  simp [List.countP_eq_zero, Function.comp, Event.isTerminal]

lemma terminalOk_single_error (m : String) : terminalOk [Event.error m] := by
  exact ⟨rfl, ⟨Event.error m, rfl, rfl⟩⟩

lemma synthTail_crash (o : ChatOracle) (pre : List Event) (calls : List String) :
    (synthTail o pre calls).crash = none := by
  unfold synthTail
  cases o.synthErr <;> rfl

lemma terminalOk_synthTail (o : ChatOracle) (pre : List Event) (calls : List String)
    (hpre : pre.countP Event.isTerminal = 0) :
    terminalOk (synthTail o pre calls).events := by
  unfold synthTail
  cases o.synthErr with
  | some e =>
    dsimp only
    refine ⟨?_, ?_⟩
    · rw [List.countP_append, List.countP_append, hpre, countP_terminal_chunkEvs]
      rfl
    · exact ⟨Event.error (errMsg e), List.getLast?_concat _, rfl⟩
  | none =>
    dsimp only
    refine ⟨?_, ?_⟩
    · rw [List.countP_append, List.countP_append, hpre, countP_terminal_chunkEvs]
      rfl
    · exact ⟨Event.done _, List.getLast?_concat _, rfl⟩

lemma synthTail_dbCalls (o : ChatOracle) (pre : List Event) (calls : List String) :
    (synthTail o pre calls).dbCalls = calls := by
  unfold synthTail
  cases o.synthErr <;> rfl

lemma countP_progress_chunkEvs (l : List String) :
    (l.map Event.final_summary_chunk).countP Event.isStructuredProgress = 0 := by
  rw [List.countP_map]
  simp [List.countP_eq_zero, Function.comp, Event.isStructuredProgress]

lemma countP_progress_synthTail (o : ChatOracle) (pre : List Event) (calls : List String)
    (hpre : pre.countP Event.isStructuredProgress = 0) :
    (synthTail o pre calls).events.countP Event.isStructuredProgress = 0 := by
  unfold synthTail
  cases o.synthErr with
  | some e =>
    dsimp only
    rw [List.countP_append, List.countP_append, hpre, countP_progress_chunkEvs]
    rfl
  | none =>
    dsimp only
    rw [List.countP_append, List.countP_append, hpre, countP_progress_chunkEvs]
    rfl

lemma chunkPayloads_append (l₁ l₂ : List Event) :
    chunkPayloads (l₁ ++ l₂) = chunkPayloads l₁ ++ chunkPayloads l₂ := by
  unfold chunkPayloads
  exact List.filterMap_append l₁ l₂ _

lemma chunkPayloads_map_chunk (l : List String) :
    chunkPayloads (l.map Event.final_summary_chunk) = l := by
  unfold chunkPayloads
  induction l with
  | nil => rfl
  | cons a t ih => simpa using ih

/-- In a synthTail stream whose prefix carries no chunk payloads and no done
event, the payload of any done event is the join of all chunk payloads. -/
lemma done_synthTail (o : ChatOracle) (pre : List Event) (calls : List String) (c : String)
    (hpre : chunkPayloads pre = []) (hnd : ∀ x, Event.done x ∈ pre → False) :
    Event.done c ∈ (synthTail o pre calls).events →
      c = String.join (chunkPayloads (synthTail o pre calls).events) := by
  unfold synthTail
  cases o.synthErr with
  | some e =>
    dsimp only
    intro hmem
    exfalso
    rcases List.mem_append.mp hmem with h | h
    · rcases List.mem_append.mp h with h1 | h2
      · exact hnd c h1
      · rcases List.mem_map.mp h2 with ⟨x, _, hx⟩
        exact Event.noConfusion hx
    · rw [List.mem_singleton] at h
      exact Event.noConfusion h
  | none =>
    dsimp only
    intro hmem
    have hcp :
        chunkPayloads
            (pre ++ o.synthChunks.map Event.final_summary_chunk ++
              [Event.done (o.synthChunks.foldl (fun acc c => acc ++ c) "")]) =
          o.synthChunks := by
      rw [chunkPayloads_append, chunkPayloads_append, hpre, chunkPayloads_map_chunk]
      simp [chunkPayloads]
    rcases List.mem_append.mp hmem with h | h
    · exfalso
      rcases List.mem_append.mp h with h1 | h2
      · exact hnd c h1
      · rcases List.mem_map.mp h2 with ⟨x, _, hx⟩
        exact Event.noConfusion hx
    · rw [List.mem_singleton] at h
      have hc : c = o.synthChunks.foldl (fun acc c => acc ++ c) "" := by
        injection h
      rw [hcp, hc]
      rfl

/- ===================== Store lemmas for C2 ===================== -/

lemma idsOf_upsertRow_present (store : Store) (r : ClaimRecord)
    (h : store.any (fun row => row.1 == r.1) = true) :
    idsOf (upsertRow store r) = idsOf store := by
  unfold upsertRow idsOf
  rw [if_pos h, List.map_map]
  apply List.map_congr_left
  intro a _
  by_cases ha : (a.1 == r.1) = true
  · simp [Function.comp, ha]
  · simp [Function.comp, ha]

lemma nodup_ids_upsertRow (store : Store) (r : ClaimRecord)
    (h : (idsOf store).Nodup) : (idsOf (upsertRow store r)).Nodup := by
  by_cases hc : store.any (fun row => row.1 == r.1) = true
  · rw [idsOf_upsertRow_present store r hc]
    exact h
  · unfold upsertRow idsOf
    rw [if_neg hc, List.map_append]
    rw [List.nodup_append]
    refine ⟨h, List.nodup_singleton _, ?_⟩
    intro a ha hb
    simp only [List.map_cons, List.map_nil, List.mem_singleton] at hb
    subst hb
    apply hc
    rw [List.any_eq_true]
    rcases List.mem_map.mp ha with ⟨row, hrow, hfst⟩
    refine ⟨row, hrow, ?_⟩
    simp [hfst]

lemma nodup_ids_upsertBatch (recs : List ClaimRecord) :
    ∀ store : Store, (idsOf store).Nodup → (idsOf (upsertBatch store recs)).Nodup := by
  induction recs with
  | nil =>
    intro store h
    exact h
  | cons r rest ih =>
    intro store h
    exact ih _ (nodup_ids_upsertRow store r h)

lemma lookup_replace_self (store : Store) (r : ClaimRecord)
    (hc : store.any (fun row => row.1 == r.1) = true) :
    ((store.map (fun row => if row.1 == r.1 then (row.1, r.2) else row)).find?
        (fun x => x.1 == r.1)).map Prod.snd = some r.2 := by
  induction store with
  | nil => simp at hc
  | cons a t ih =>
    rw [List.map_cons]
    by_cases ha : (a.1 == r.1) = true
    · rw [if_pos ha, List.find?_cons]
      simp [ha]
    · have hc' : t.any (fun row => row.1 == r.1) = true := by
        rcases List.any_eq_true.mp hc with ⟨x, hx, hpx⟩
        rcases List.mem_cons.mp hx with rfl | hxt
        · exact absurd hpx ha
        · exact List.any_eq_true.mpr ⟨x, hxt, hpx⟩
      have haf : (a.1 == r.1) = false := by simpa using ha
      rw [if_neg ha, List.find?_cons]
      simp only [haf]
      exact ih hc'

lemma lookup_replace_other (store : Store) (r : ClaimRecord) (j : String) (hj : j ≠ r.1) :
    ((store.map (fun row => if row.1 == r.1 then (row.1, r.2) else row)).find?
        (fun x => x.1 == j)).map Prod.snd =
      (store.find? (fun x => x.1 == j)).map Prod.snd := by
  induction store with
  | nil => rfl
  | cons a t ih =>
    rw [List.map_cons]
    by_cases ha : (a.1 == r.1) = true
    · have hajf : (a.1 == j) = false := by
        have h1 : a.1 = r.1 := eq_of_beq ha
        rw [h1]
        simpa using fun h => hj h.symm
      rw [if_pos ha, List.find?_cons, List.find?_cons]
      simp only [hajf]
      exact ih
    · by_cases haj : (a.1 == j) = true
      · rw [if_neg ha, List.find?_cons, List.find?_cons]
        simp only [haj]
      · have hajf : (a.1 == j) = false := by simpa using haj
        rw [if_neg ha, List.find?_cons, List.find?_cons]
        simp only [hajf]
        exact ih

lemma lookupId_upsertRow_self (store : Store) (r : ClaimRecord) :
    lookupId (upsertRow store r) r.1 = some r.2 := by
  unfold upsertRow lookupId
  by_cases hc : store.any (fun row => row.1 == r.1) = true
  · rw [if_pos hc]
    exact lookup_replace_self store r hc
  · rw [if_neg hc, List.find?_append]
    have hnone : store.find? (fun x => x.1 == r.1) = none := by
      rw [List.find?_eq_none]
      intro x hx hpx
      exact hc (List.any_eq_true.mpr ⟨x, hx, hpx⟩)
    simp [hnone, List.find?]

lemma lookupId_upsertRow_other (store : Store) (r : ClaimRecord) (j : String)
    (hj : j ≠ r.1) : lookupId (upsertRow store r) j = lookupId store j := by
  unfold upsertRow lookupId
  by_cases hc : store.any (fun row => row.1 == r.1) = true
  · rw [if_pos hc]
    exact lookup_replace_other store r j hj
  · rw [if_neg hc, List.find?_append]
    have hr : (r.1 == j) = false := beq_eq_false_iff_ne.mpr (fun h => hj h.symm)
    cases hfs : store.find? (fun x => x.1 == j) with
    | none => simp [hfs, List.find?, hr]
    | some v => simp [hfs]

lemma lookupId_upsertBatch (recs : List ClaimRecord) :
    ∀ (store : Store) (i : String),
      lookupId (upsertBatch store recs) i = (latestIn recs i).or (lookupId store i) := by
  induction recs with
  | nil =>
    intro store i
    simp [upsertBatch, latestIn]
  | cons r rest ih =>
    intro store i
    rw [show upsertBatch store (r :: rest) = upsertBatch (upsertRow store r) rest from rfl,
      ih]
    have hl : latestIn (r :: rest) i =
        (latestIn rest i).or (if (r.1 == i) = true then some r.2 else none) := by
      unfold latestIn
      rw [List.reverse_cons, List.find?_append]
      cases hf : rest.reverse.find? (fun x => x.1 == i) with
      | none =>
        by_cases hri : (r.1 == i) = true
        · simp [hf, List.find?, hri]
        · simp [hf, List.find?, hri]
      | some v => simp [hf]
    rw [hl]
    cases hrest : latestIn rest i with
    | some f => simp
    | none =>
      simp only [Option.none_or]
      by_cases hri : (r.1 == i) = true
      · have hir : i = r.1 := (eq_of_beq hri).symm
        subst hir
        simp [hri, lookupId_upsertRow_self]
      · have hne : i ≠ r.1 := by
          intro h
          subst h
          simp at hri
        simp [hri, lookupId_upsertRow_other store r i hne]

lemma bulkInsert_conflict (recs : List ClaimRecord) :
    ∀ store : Store, (∃ r ∈ recs, r.1 ∈ idsOf store) →
      bulkInsertBatch store recs = Except.error () := by
  induction recs with
  | nil =>
    intro store h
    rcases h with ⟨r, hr, _⟩
    exact absurd hr (List.not_mem_nil r)
  | cons a rest ih =>
    intro store h
    unfold bulkInsertBatch
    by_cases hc : (store.any (fun row => row.1 == a.1)) = true
    · rw [if_pos hc]
    · rw [if_neg hc]
      apply ih
      rcases h with ⟨r, hr, hrid⟩
      rcases List.mem_cons.mp hr with rfl | hrt
      · exfalso
        apply hc
        rw [List.any_eq_true]
        rcases List.mem_map.mp hrid with ⟨row, hrow, hfst⟩
        refine ⟨row, hrow, ?_⟩
        simp [hfst]
      · refine ⟨r, hrt, ?_⟩
        unfold idsOf
        rw [List.map_append]
        exact List.mem_append_left _ hrid

/- ===================== Upload loop lemmas ===================== -/

lemma uploadLoop_nil_parts (ab : Store → List ClaimRecord → Except Unit Store)
    (s : List ClaimRecord → String) (b : String → VectorStore) (rag : RAGService)
    (store : Store) (count : Nat) (combined : List ClaimRecord) :
    (uploadLoop ab s b rag store count combined []).store = store ∧
    (uploadLoop ab s b rag store count combined []).count = count ∧
    (uploadLoop ab s b rag store count combined []).err = none := by
  by_cases h : combined.isEmpty = true <;> simp [uploadLoop, h]

/-- A run of the Backend upload loop over files that all parse successfully
and whose batches are free of internal duplicate claim_ids (so every upsert
statement succeeds): every batch is upserted in order, the count is the
total row count, and the vector store is rebuilt from the summary of the
head of the combined rows exactly when the combined rows are nonempty. -/
lemma uploadLoop_upsert_run (s : List ClaimRecord → String) (b : String → VectorStore)
    (rag : RAGService) (batches : List (String × List ClaimRecord))
    (hnd : ∀ p ∈ batches, (idsOf p.2).Nodup) :
    ∀ (store : Store) (count : Nat) (combined : List ClaimRecord),
      uploadLoop upsertApply s b rag store count combined
          (batches.map (fun p => ⟨p.1, Except.ok p.2⟩)) =
        ⟨upsertBatch store (batches.map Prod.snd).flatten,
          (if (combined ++ (batches.map Prod.snd).flatten).isEmpty then rag
            else
              create_vector_store_from_text b rag
                (generate_summary_from_dataframe s
                  (combined ++ (batches.map Prod.snd).flatten))),
          count + ((batches.map Prod.snd).flatten).length, none⟩ := by
  induction batches with
  | nil =>
    intro store count combined
    by_cases hc : combined = [] <;> simp [uploadLoop, upsertBatch, hc]
  | cons p rest ih =>
    intro store count combined
    by_cases hp : p.2.isEmpty = true
    · have hp' : p.2 = [] := List.isEmpty_iff.mp hp
      have hstep :
          uploadLoop upsertApply s b rag store count combined
              ((p :: rest).map (fun x => ⟨x.1, Except.ok x.2⟩)) =
            uploadLoop upsertApply s b rag store count (combined ++ p.2)
              (rest.map (fun x => ⟨x.1, Except.ok x.2⟩)) := by
        simp [uploadLoop, hp]
      rw [hstep, ih (fun x hx => hnd x (List.mem_cons_of_mem p hx))]
      simp [hp', upsertBatch, List.append_assoc]
      rw [List.append_assoc]
    · have hstep :
          uploadLoop upsertApply s b rag store count combined
              ((p :: rest).map (fun x => ⟨x.1, Except.ok x.2⟩)) =
            uploadLoop upsertApply s b rag (upsertBatch store p.2)
              (count + p.2.length) (combined ++ p.2)
              (rest.map (fun x => ⟨x.1, Except.ok x.2⟩)) := by
        simp [uploadLoop, hp, upsertApply, hnd p (List.mem_cons_self p rest)]
      rw [hstep, ih (fun x hx => hnd x (List.mem_cons_of_mem p hx))]
      have hjoin : upsertBatch store (p.2 ++ (rest.map Prod.snd).flatten) =
          upsertBatch (upsertBatch store p.2) (rest.map Prod.snd).flatten := by
        unfold upsertBatch
        rw [List.foldl_append]
      simp [hjoin, List.append_assoc, Nat.add_assoc]
      rw [List.append_assoc]

/-- A run of the upload loop over files that all parse to zero rows leaves
every component of the state untouched. -/
lemma uploadLoop_all_empty (ab : Store → List ClaimRecord → Except Unit Store)
    (s : List ClaimRecord → String) (b : String → VectorStore) (rag : RAGService)
    (files : List FileInput) (h : ∀ f ∈ files, f.parsed = Except.ok []) :
    ∀ (store : Store) (count : Nat) (combined : List ClaimRecord),
      uploadLoop ab s b rag store count combined files =
        uploadLoop ab s b rag store count combined [] := by
  induction files with
  | nil =>
    intro store count combined
    rfl
  | cons f fs ih =>
    intro store count combined
    have hf := h f (List.mem_cons_self f fs)
    have hstep : uploadLoop ab s b rag store count combined (f :: fs) =
        uploadLoop ab s b rag store count (combined ++ []) fs := by
      simp [uploadLoop, hf]
    rw [hstep, List.append_nil]
    exact ih (fun g hg => h g (List.mem_cons_of_mem f hg)) store count combined

/-- Failure isolation of the shared upload loop: when every file of the
prefix is processed successfully and the next file fails (parse failure, or
a nonempty batch whose database write fails), the request ends with the
error naming that file, the store keeps exactly the batches committed for
the prefix, and the RAG state is untouched. -/
lemma uploadLoop_fail_after (ab : Store → List ClaimRecord → Except Unit Store)
    (s : List ClaimRecord → String) (b : String → VectorStore) (rag : RAGService)
    (f : FileInput) (rest : List FileInput) (good : List FileInput) :
    ∀ (store : Store) (count : Nat) (combined : List ClaimRecord),
      (uploadLoop ab s b rag store count combined good).err = none →
      (f.parsed = Except.error () ∨
        ∃ rows, f.parsed = Except.ok rows ∧ rows.isEmpty = false ∧
          ab (uploadLoop ab s b rag store count combined good).store rows =
            Except.error ()) →
      uploadLoop ab s b rag store count combined (good ++ f :: rest) =
        ⟨(uploadLoop ab s b rag store count combined good).store, rag,
          (uploadLoop ab s b rag store count combined good).count,
          some (uploadErrorMsg f.name)⟩ := by
  induction good with
  | nil =>
    intro store count combined hok hf
    obtain ⟨hs, hc, _⟩ := uploadLoop_nil_parts ab s b rag store count combined
    rw [List.nil_append, hs, hc]
    rw [hs] at hf
    rcases hf with hf | ⟨rows, hfp, hfe, hfab⟩
    · cases f with
      | mk name parsed =>
        simp only at hf
        simp [uploadLoop, hf]
    · cases f with
      | mk name parsed =>
        simp only at hfp hfab
        simp [uploadLoop, hfp, hfe, hfab]
  | cons g gs ih =>
    intro store count combined hok hf
    cases hg : g.parsed with
    | error e =>
      exfalso
      simp [uploadLoop, hg] at hok
    | ok rows =>
      by_cases hre : rows.isEmpty = true
      · have hstep : ∀ (tail : List FileInput),
            uploadLoop ab s b rag store count combined (g :: tail) =
              uploadLoop ab s b rag store count (combined ++ rows) tail := by
          intro tail
          simp [uploadLoop, hg, hre]
        rw [List.cons_append, hstep (gs ++ f :: rest), hstep gs]
        rw [hstep gs] at hok hf
        exact ih store count (combined ++ rows) hok hf
      · cases hab : ab store rows with
        | error e =>
          exfalso
          simp [uploadLoop, hg, hre, hab] at hok
        | ok store' =>
          have hstep : ∀ (tail : List FileInput),
              uploadLoop ab s b rag store count combined (g :: tail) =
                uploadLoop ab s b rag store' (count + rows.length)
                  (combined ++ rows) tail := by
            intro tail
            simp [uploadLoop, hg, hre, hab]
          rw [List.cons_append, hstep (gs ++ f :: rest), hstep gs]
          rw [hstep gs] at hok hf
          exact ih store' (count + rows.length) (combined ++ rows) hok hf

/- ===================== C1 ===================== -/

/-- C1 (amended).  In the Backend variant (src/backend/main1.py), every chat
request yields a stream with no uncaught exception and exactly one terminal
event (done or error), which is the last event — in particular a routing
exception still produces a terminal error event, because the router call
sits inside the try block.  In the DataApp variant (src/data/main.py) the
same holds for every request whose routing step returns normally; a routing
exception there escapes the generator uncaught (see the counterexample). -/
theorem C1_terminal_event :
    (∀ (o : ChatOracle) (rag : RAGService) (q : String),
        (Backend.stream_generator o rag q).crash = none ∧
        terminalOk (Backend.stream_generator o rag q).events) ∧
    (∀ (o : ChatOracle) (rag : RAGService) (q raw : String),
        o.routerResp = Except.ok raw →
        (DataApp.stream_generator o rag q).crash = none ∧
        terminalOk (DataApp.stream_generator o rag q).events) := by
  constructor
  · intro o rag q
    obtain ⟨rr, sr, db, sc, se⟩ := o
    unfold Backend.stream_generator
    cases rr with
    | error e => exact ⟨rfl, terminalOk_single_error _⟩
    | ok raw =>
      dsimp only
      by_cases hroute : routedStructured raw = true
      · rw [if_pos hroute]
        cases sr with
        | error e => exact ⟨rfl, terminalOk_single_error _⟩
        | ok s =>
          dsimp only
          cases db (sanitizeSQL s) with
          | error e => exact ⟨rfl, terminalOk_single_error _⟩
          | ok d => exact ⟨synthTail_crash _ _ _, terminalOk_synthTail _ _ _ rfl⟩
      · rw [if_neg hroute]
        cases query_vector_store rag q with
        | error e => exact ⟨rfl, terminalOk_single_error _⟩
        | ok ctx => exact ⟨synthTail_crash _ _ _, terminalOk_synthTail _ _ _ rfl⟩
  · intro o rag q raw h
    obtain ⟨rr, sr, db, sc, se⟩ := o
    cases h
    unfold DataApp.stream_generator
    dsimp only
    by_cases hroute : routedStructured raw = true
    · rw [if_pos hroute]
      cases sr with
      | error e =>
        exact ⟨rfl, ⟨rfl, ⟨Event.error (errMsg e), rfl, rfl⟩⟩⟩
      | ok s =>
        dsimp only
        cases db (sanitizeSQL s) with
        | error e =>
          exact ⟨rfl, ⟨rfl, ⟨Event.error (errMsg e), rfl, rfl⟩⟩⟩
        | ok d => exact ⟨synthTail_crash _ _ _, terminalOk_synthTail _ _ _ rfl⟩
    · rw [if_neg hroute]
      cases query_vector_store rag q with
      | error e =>
        exact ⟨rfl, ⟨rfl, ⟨Event.error (errMsg e), rfl, rfl⟩⟩⟩
      | ok ctx => exact ⟨synthTail_crash _ _ _, terminalOk_synthTail _ _ _ rfl⟩

/-- Witness for C1 at a concrete successful request in both variants. -/
theorem C1_terminal_event_witness :
    (Backend.stream_generator c1WitnessOracle ⟨none⟩ "count claims").crash = none ∧
    terminalOk (Backend.stream_generator c1WitnessOracle ⟨none⟩ "count claims").events ∧
    (DataApp.stream_generator c1WitnessOracle ⟨none⟩ "count claims").crash = none ∧
    terminalOk (DataApp.stream_generator c1WitnessOracle ⟨none⟩ "count claims").events := by
  obtain ⟨hb, hd⟩ := C1_terminal_event
  obtain ⟨b1, b2⟩ := hb c1WitnessOracle ⟨none⟩ "count claims"
  obtain ⟨d1, d2⟩ := hd c1WitnessOracle ⟨none⟩ "count claims" "SQL" rfl
  exact ⟨b1, b2, d1, d2⟩

/-- Counterexample to C1 as stated: in the DataApp variant a routing
exception leaves the stream with zero terminal events (the generator
crashes before yielding anything), not with a terminal error event. -/
theorem C1_router_crash_counterexample :
    (DataApp.stream_generator c1CrashOracle ⟨none⟩ "q").events = [] ∧
    (DataApp.stream_generator c1CrashOracle ⟨none⟩ "q").events.countP Event.isTerminal = 0 ∧
    (DataApp.stream_generator c1CrashOracle ⟨none⟩ "q").crash = some "boom" := by
  exact ⟨rfl, rfl, rfl⟩

/- ===================== C4 ===================== -/

/-- C4 (amended).  In the DataApp variant, a structured-path request whose
generation, execution and synthesis all succeed emits exactly the events
thinking, sql_generated, query_result (carrying the result rows),
summarizing, then the final_summary_chunk events, then done — so
sql_generated precedes query_result, both precede every
final_summary_chunk, and done is last.  The Backend variant emits no
sql_generated or query_result event on any request at all. -/
theorem C4_structured_event_order :
    (∀ (o : ChatOracle) (rag : RAGService) (q raw s : String) (d : List Row),
        o.routerResp = Except.ok raw → routedStructured raw = true →
        o.sqlResp = Except.ok s → o.db (sanitizeSQL s) = Except.ok d →
        o.synthErr = none →
        (DataApp.stream_generator o rag q).events =
          [Event.thinking (thinkingMsg (pyStrip raw)),
              Event.sql_generated (sanitizeSQL s),
              Event.query_result d,
              Event.summarizing summarizingMsg] ++
            o.synthChunks.map Event.final_summary_chunk ++
            [Event.done (o.synthChunks.foldl (fun acc c => acc ++ c) "")]) ∧
    (∀ (o : ChatOracle) (rag : RAGService) (q : String),
        (Backend.stream_generator o rag q).events.countP Event.isStructuredProgress = 0) := by
  constructor
  · intro o rag q raw s d h1 h2 h3 h4 h5
    simp [DataApp.stream_generator, synthTail, h1, h2, h3, h4, h5]
  · intro o rag q
    obtain ⟨rr, sr, db, sc, se⟩ := o
    unfold Backend.stream_generator
    cases rr with
    | error e => rfl
    | ok raw =>
      dsimp only
      by_cases hroute : routedStructured raw = true
      · rw [if_pos hroute]
        cases sr with
        | error e => rfl
        | ok s =>
          dsimp only
          cases db (sanitizeSQL s) with
          | error e => rfl
          | ok d => exact countP_progress_synthTail _ _ _ rfl
      · rw [if_neg hroute]
        cases query_vector_store rag q with
        | error e => rfl
        | ok ctx => exact countP_progress_synthTail _ _ _ rfl

/-- Witness for C4 at a concrete structured-path request. -/
theorem C4_structured_event_order_witness :
    (DataApp.stream_generator c4Oracle ⟨none⟩ "how many claims").events =
      [Event.thinking (thinkingMsg (pyStrip "SQL")),
          Event.sql_generated (sanitizeSQL "SELECT COUNT(*) FROM claims"),
          Event.query_result [[("count", "5")]],
          Event.summarizing summarizingMsg] ++
        ["five"].map Event.final_summary_chunk ++
        [Event.done (["five"].foldl (fun acc c => acc ++ c) "")] ∧
    (Backend.stream_generator c4Oracle ⟨none⟩ "how many claims").events.countP
        Event.isStructuredProgress = 0 := by
  exact
    ⟨C4_structured_event_order.1 c4Oracle ⟨none⟩ "how many claims" "SQL"
        "SELECT COUNT(*) FROM claims" [[("count", "5")]] rfl (by decide) rfl rfl rfl,
      C4_structured_event_order.2 c4Oracle ⟨none⟩ "how many claims"⟩

/-- Counterexample to C4 as stated: in the Backend variant a request routed
to the structured path emits no sql_generated and no query_result event —
its stream is just the chunk events followed by done. -/
theorem C4_backend_no_progress_counterexample :
    routedStructured "SQL" = true ∧
    (Backend.stream_generator c4Oracle ⟨none⟩ "how many claims").events =
      [Event.final_summary_chunk "five", Event.done "five"] := by
  exact ⟨by decide, by decide⟩

/- ===================== C5 ===================== -/

/-- C5 (confirmed).  The request is routed to the structured path exactly
when the classification response contains the literal marker SQL as a
substring (stripping the response first cannot create or destroy an
occurrence); every other response takes the semantic path, on which no
query is ever executed against the store, and the single classification
response fully determines the branch (no retry). -/
theorem C5_routing_policy :
    (∀ raw : String, routedStructured raw = true ↔ sqlMarker.data <:+: raw.data) ∧
    (∀ (o : ChatOracle) (rag : RAGService) (q raw : String),
        o.routerResp = Except.ok raw → routedStructured raw = false →
        (Backend.stream_generator o rag q).dbCalls = [] ∧
        (DataApp.stream_generator o rag q).dbCalls = []) := by
  constructor
  · exact routedStructured_iff_marker
  · intro o rag q raw h hsem
    obtain ⟨rr, sr, db, sc, se⟩ := o
    cases h
    have hnot : ¬ routedStructured raw = true := by simp [hsem]
    constructor
    · unfold Backend.stream_generator
      dsimp only
      rw [if_neg hnot]
      cases query_vector_store rag q with
      | error e => rfl
      | ok ctx => exact synthTail_dbCalls _ _ _
    · unfold DataApp.stream_generator
      dsimp only
      rw [if_neg hnot]
      cases query_vector_store rag q with
      | error e => rfl
      | ok ctx => exact synthTail_dbCalls _ _ _

/-- Witness for C5: the marker test on a concrete response, and a concrete
SEMANTIC-classified request executing no query in either variant. -/
theorem C5_routing_policy_witness :
    (routedStructured " please use SQL " = true ↔
      sqlMarker.data <:+: " please use SQL ".data) ∧
    (Backend.stream_generator c5Oracle ⟨none⟩ "why so many denials").dbCalls = [] ∧
    (DataApp.stream_generator c5Oracle ⟨none⟩ "why so many denials").dbCalls = [] := by
  exact
    ⟨C5_routing_policy.1 " please use SQL ",
      C5_routing_policy.2 c5Oracle ⟨none⟩ "why so many denials" "SEMANTIC" rfl (by decide)⟩

/- ===================== C6 ===================== -/

/-- C6 (confirmed).  With no vector store — nothing ingested yet, or right
after clear_vector_store — query_vector_store returns the fixed sentinel
string normally (Except.ok, never an exception). -/
theorem C6_sentinel_context :
    (∀ (r : RAGService) (q : String), r.vector_store = none →
        query_vector_store r q = Except.ok noKnowledgeBaseMsg) ∧
    (∀ (r : RAGService) (q : String),
        query_vector_store (clear_vector_store r) q = Except.ok noKnowledgeBaseMsg) := by
  constructor
  · intro r q h
    unfold query_vector_store
    rw [h]
  · intro r q
    rfl

/-- Witness for C6 at a concrete fresh service and a concrete question. -/
theorem C6_sentinel_context_witness :
    query_vector_store ⟨none⟩ "any insights" = Except.ok noKnowledgeBaseMsg ∧
    query_vector_store (clear_vector_store ⟨some (fun _ => Except.ok ["doc"])⟩)
        "any insights" = Except.ok noKnowledgeBaseMsg := by
  exact
    ⟨C6_sentinel_context.1 ⟨none⟩ "any insights" rfl,
      C6_sentinel_context.2 ⟨some (fun _ => Except.ok ["doc"])⟩ "any insights"⟩

/- ===================== C8 ===================== -/

/-- C8 (confirmed).  In both variants, whenever a done event appears in the
stream its content equals the concatenation, in emission order, of the
contents of all final_summary_chunk events of that stream. -/
theorem C8_done_accumulates_chunks :
    ∀ (o : ChatOracle) (rag : RAGService) (q c : String),
      (Event.done c ∈ (Backend.stream_generator o rag q).events →
        c = String.join (chunkPayloads (Backend.stream_generator o rag q).events)) ∧
      (Event.done c ∈ (DataApp.stream_generator o rag q).events →
        c = String.join (chunkPayloads (DataApp.stream_generator o rag q).events)) := by
  intro o rag q c
  obtain ⟨rr, sr, db, sc, se⟩ := o
  constructor
  · unfold Backend.stream_generator
    cases rr with
    | error e =>
      intro hmem
      simp at hmem
    | ok raw =>
      dsimp only
      by_cases hroute : routedStructured raw = true
      · rw [if_pos hroute]
        cases sr with
        | error e =>
          intro hmem
          simp at hmem
        | ok s =>
          dsimp only
          cases db (sanitizeSQL s) with
          | error e =>
            intro hmem
            simp at hmem
          | ok d =>
            exact done_synthTail _ [] _ c rfl (fun x hx => (List.not_mem_nil (Event.done x)) hx)
      · rw [if_neg hroute]
        cases query_vector_store rag q with
        | error e =>
          intro hmem
          simp at hmem
        | ok ctx =>
          exact done_synthTail _ [] _ c rfl (fun x hx => (List.not_mem_nil (Event.done x)) hx)
  · unfold DataApp.stream_generator
    cases rr with
    | error e =>
      intro hmem
      simp at hmem
    | ok raw =>
      dsimp only
      by_cases hroute : routedStructured raw = true
      · rw [if_pos hroute]
        cases sr with
        | error e =>
          intro hmem
          simp at hmem
        | ok s =>
          dsimp only
          cases db (sanitizeSQL s) with
          | error e =>
            intro hmem
            simp at hmem
          | ok d =>
            exact done_synthTail _
              [Event.thinking (thinkingMsg (pyStrip raw)),
                Event.sql_generated (sanitizeSQL s), Event.query_result d,
                Event.summarizing summarizingMsg] _ c rfl
              (fun x hx => by simp at hx)
      · rw [if_neg hroute]
        cases query_vector_store rag q with
        | error e =>
          intro hmem
          simp at hmem
        | ok ctx =>
          exact done_synthTail _
            [Event.thinking (thinkingMsg (pyStrip raw)), Event.semantic_search semanticMsg,
              Event.summarizing summarizingMsg] _ c rfl
            (fun x hx => by simp at hx)

/-- Witness for C8 at a concrete semantic-path request. -/
theorem C8_done_accumulates_chunks_witness :
    Event.done "Hello world" ∈ (Backend.stream_generator c8Oracle ⟨none⟩ "hi").events ∧
    "Hello world" =
      String.join (chunkPayloads (Backend.stream_generator c8Oracle ⟨none⟩ "hi").events) := by
  have hmem : Event.done "Hello world" ∈ (Backend.stream_generator c8Oracle ⟨none⟩ "hi").events := by
    decide
  exact ⟨hmem, (C8_done_accumulates_chunks c8Oracle ⟨none⟩ "hi" "Hello world").1 hmem⟩

/- ===================== C9 ===================== -/

/-- C9 (confirmed).  The sanitized query is the candidate with leading and
trailing whitespace stripped and every backtick and every semicolon removed
wherever it occurs, and in both variants the only text ever executed
against the store on the structured path is exactly that sanitized text. -/
theorem C9_sanitized_query_execution :
    (∀ s : String, (sanitizeSQL s).data =
        (stripList s.data).filter (fun c => c != backtickChar && c != ';')) ∧
    (∀ (o : ChatOracle) (rag : RAGService) (q raw s : String),
        o.routerResp = Except.ok raw → routedStructured raw = true →
        o.sqlResp = Except.ok s →
        (Backend.stream_generator o rag q).dbCalls = [sanitizeSQL s] ∧
        (DataApp.stream_generator o rag q).dbCalls = [sanitizeSQL s]) := by
  constructor
  · intro s
    unfold sanitizeSQL pyRemoveChar pyStrip
    dsimp only
    rw [List.filter_filter]
    apply List.filter_congr
    intro a _
    exact Bool.and_comm _ _
  · intro o rag q raw s h1 h2 h3
    obtain ⟨rr, sr, db, sc, se⟩ := o
    cases h1
    cases h3
    constructor
    · cases hdb : db (sanitizeSQL s) with
      | error e => simp [Backend.stream_generator, h2, hdb]
      | ok d => simp [Backend.stream_generator, h2, hdb, synthTail_dbCalls]
    · cases hdb : db (sanitizeSQL s) with
      | error e => simp [DataApp.stream_generator, h2, hdb]
      | ok d => simp [DataApp.stream_generator, h2, hdb, synthTail_dbCalls]

/-- Witness for C9 at a concrete fenced candidate query. -/
theorem C9_sanitized_query_execution_witness :
    (sanitizeSQL " ```SELECT COUNT(*) FROM claims;``` ").data =
      (stripList " ```SELECT COUNT(*) FROM claims;``` ".data).filter
        (fun c => c != backtickChar && c != ';') ∧
    (Backend.stream_generator c9Oracle ⟨none⟩ "count").dbCalls =
      [sanitizeSQL " ```SELECT COUNT(*) FROM claims;``` "] ∧
    (DataApp.stream_generator c9Oracle ⟨none⟩ "count").dbCalls =
      [sanitizeSQL " ```SELECT COUNT(*) FROM claims;``` "] := by
  refine ⟨C9_sanitized_query_execution.1 _, ?_⟩
  exact
    C9_sanitized_query_execution.2 c9Oracle ⟨none⟩ "count" "SQL"
      " ```SELECT COUNT(*) FROM claims;``` " rfl (by decide) rfl

/- ===================== C2 ===================== -/

/-- C2 (amended).  In the Backend variant the per-batch write is the
multi-row ON CONFLICT upsert: whenever the statement succeeds it preserves
uniqueness of claim_id and leaves each id holding the fields of the last
record carrying it (falling back to the prior row); a batch that itself
repeats a claim_id makes the statement raise the Postgres cardinality
violation and apply nothing; and a successful multi-file upload (each batch
free of internal duplicates) leaves the store equal to the sequential
composition of the per-batch upserts, so each id holds the latest uploaded
value.  In the DataApp variant the per-batch write is a plain insert
instead: any batch containing an id that is already present fails outright
with no field updated — so it still never duplicates a row, but it does not
update existing rows as the claim states. -/
theorem C2_upsert_unique_latest :
    (∀ (store store' : Store) (recs : List ClaimRecord),
        upsertApply store recs = Except.ok store' →
        (idsOf store).Nodup → (idsOf store').Nodup) ∧
    (∀ (store store' : Store) (recs : List ClaimRecord) (i : String),
        upsertApply store recs = Except.ok store' →
        lookupId store' i = (latestIn recs i).or (lookupId store i)) ∧
    (∀ (store : Store) (recs : List ClaimRecord),
        ¬ (idsOf recs).Nodup → upsertApply store recs = Except.error ()) ∧
    (∀ (s : List ClaimRecord → String) (b : String → VectorStore) (rag : RAGService)
        (store : Store) (batches : List (String × List ClaimRecord)),
        (∀ p ∈ batches, (idsOf p.2).Nodup) →
        (Backend.upload_claims_data s b rag store
              (batches.map (fun p => ⟨p.1, Except.ok p.2⟩))).store =
            upsertBatch store (batches.map Prod.snd).flatten ∧
          ∀ i, lookupId
              (Backend.upload_claims_data s b rag store
                (batches.map (fun p => ⟨p.1, Except.ok p.2⟩))).store i =
            (latestIn (batches.map Prod.snd).flatten i).or (lookupId store i)) ∧
    (∀ (store : Store) (recs : List ClaimRecord),
        (∃ r ∈ recs, r.1 ∈ idsOf store) →
        bulkInsertBatch store recs = Except.error ()) := by
  have happ : ∀ (store store' : Store) (recs : List ClaimRecord),
      upsertApply store recs = Except.ok store' → store' = upsertBatch store recs := by
    intro store store' recs h
    unfold upsertApply at h
    by_cases hnd : (idsOf recs).Nodup
    · rw [if_pos hnd] at h
      injection h
      subst store'
      rfl
    · rw [if_neg hnd] at h
      exact absurd h (by simp)
  refine ⟨?_, ?_, ?_, ?_, ?_⟩
  · intro store store' recs h hst
    rw [happ store store' recs h]
    exact nodup_ids_upsertBatch recs store hst
  · intro store store' recs i h
    rw [happ store store' recs h]
    exact lookupId_upsertBatch recs store i
  · intro store recs h
    unfold upsertApply
    rw [if_neg h]
  · intro s b rag store batches hnd
    have hstore :
        (Backend.upload_claims_data s b rag store
            (batches.map (fun p => ⟨p.1, Except.ok p.2⟩))).store =
          upsertBatch store (batches.map Prod.snd).flatten := by
      unfold Backend.upload_claims_data
      rw [uploadLoop_upsert_run s b rag batches hnd]
    refine ⟨hstore, ?_⟩
    intro i
    rw [hstore]
    exact lookupId_upsertBatch _ store i
  · intro store recs h
    exact bulkInsert_conflict recs store h

/-- Witness for C2 at concrete inputs: a successful one-record upsert keeps
ids unique and makes claim A hold the re-ingested fields, a batch repeating
an id fails the backend statement, the concrete endpoint upload holds the
latest value for A, and the conflicting plain insert of the DataApp variant
fails. -/
theorem C2_upsert_unique_latest_witness :
    (idsOf (upsertBatch c2Store [c2NewA])).Nodup ∧
    lookupId (upsertBatch c2Store [c2NewA]) "A" =
      (latestIn [c2NewA] "A").or (lookupId c2Store "A") ∧
    upsertApply c2Store [c2NewA, c2NewA] = Except.error () ∧
    lookupId
        (Backend.upload_claims_data stubSummarize stubBuild ⟨none⟩ c2Store
          ([("batch2.csv", [c2NewA])].map (fun p => ⟨p.1, Except.ok p.2⟩))).store "A" =
      (latestIn ([("batch2.csv", [c2NewA])].map Prod.snd).flatten "A").or
        (lookupId c2Store "A") ∧
    bulkInsertBatch c2Store [c2NewA] = Except.error () := by
  refine ⟨?_, ?_, ?_, ?_, ?_⟩
  · exact
      C2_upsert_unique_latest.1 c2Store (upsertBatch c2Store [c2NewA]) [c2NewA] rfl
        (by decide)
  · exact
      C2_upsert_unique_latest.2.1 c2Store (upsertBatch c2Store [c2NewA]) [c2NewA] "A" rfl
  · exact C2_upsert_unique_latest.2.2.1 c2Store [c2NewA, c2NewA] (by decide)
  · exact
      (C2_upsert_unique_latest.2.2.2.1 stubSummarize stubBuild ⟨none⟩ c2Store
          [("batch2.csv", [c2NewA])] (by decide)).2 "A"
  · exact C2_upsert_unique_latest.2.2.2.2 c2Store [c2NewA] (by decide)

/-- Counterexample to C2 as stated: in the DataApp variant, re-uploading an
existing identifier does not update the row — the whole request fails with
the file named, and the store keeps the old field values. -/
theorem C2_reupload_counterexample :
    DataApp.upload_claims_data stubSummarize stubBuild ⟨none⟩ c2Store
        [⟨"batch2.csv", Except.ok [c2NewA]⟩] =
      ⟨c2Store, ⟨none⟩, 0, some (uploadErrorMsg "batch2.csv")⟩ ∧
    lookupId c2Store "A" ≠ some [("claim_amount", "250")] := by
  exact ⟨rfl, by decide⟩

/- ===================== C3 ===================== -/

/-- C7 (confirmed).  In both variants, when every file of a prefix is
processed successfully and the next file fails — it does not parse, or its
nonempty batch fails to write — the request fails with the error naming
that file, the store keeps exactly the batches committed for the prefix
(the failing batch is rolled back), and the RAG state is untouched. -/
theorem C7_failed_batch_isolation :
    (∀ (s : List ClaimRecord → String) (b : String → VectorStore) (rag : RAGService)
        (store : Store) (good : List FileInput) (f : FileInput) (rest : List FileInput),
        (Backend.upload_claims_data s b rag store good).err = none →
        (f.parsed = Except.error () ∨
          ∃ rows, f.parsed = Except.ok rows ∧ rows.isEmpty = false ∧
            upsertApply (Backend.upload_claims_data s b rag store good).store rows =
              Except.error ()) →
        Backend.upload_claims_data s b rag store (good ++ f :: rest) =
          ⟨(Backend.upload_claims_data s b rag store good).store, rag,
            (Backend.upload_claims_data s b rag store good).count,
            some (uploadErrorMsg f.name)⟩) ∧
    (∀ (s : List ClaimRecord → String) (b : String → VectorStore) (rag : RAGService)
        (store : Store) (good : List FileInput) (f : FileInput) (rest : List FileInput),
        (DataApp.upload_claims_data s b rag store good).err = none →
        (f.parsed = Except.error () ∨
          ∃ rows, f.parsed = Except.ok rows ∧ rows.isEmpty = false ∧
            bulkInsertBatch (DataApp.upload_claims_data s b rag store good).store rows =
              Except.error ()) →
        DataApp.upload_claims_data s b rag store (good ++ f :: rest) =
          ⟨(DataApp.upload_claims_data s b rag store good).store, rag,
            (DataApp.upload_claims_data s b rag store good).count,
            some (uploadErrorMsg f.name)⟩) := by
  constructor
  · intro s b rag store good f rest hok hf
    exact uploadLoop_fail_after upsertApply s b rag f rest good store 0 [] hok hf
  · intro s b rag store good f rest hok hf
    exact uploadLoop_fail_after bulkInsertBatch s b rag f rest good store 0 [] hok hf

/-- Witness for C7: a concrete two-file request in each variant, failing on
the second file, keeps the first committed batch and names the bad file. -/
theorem C7_failed_batch_isolation_witness :
    Backend.upload_claims_data stubSummarize stubBuild ⟨none⟩ [] (c7Good ++ [c7BadParse]) =
      ⟨(Backend.upload_claims_data stubSummarize stubBuild ⟨none⟩ [] c7Good).store, ⟨none⟩,
        (Backend.upload_claims_data stubSummarize stubBuild ⟨none⟩ [] c7Good).count,
        some (uploadErrorMsg "bad.csv")⟩ ∧
    DataApp.upload_claims_data stubSummarize stubBuild ⟨none⟩ [] (c7Good ++ [c7DupFile]) =
      ⟨(DataApp.upload_claims_data stubSummarize stubBuild ⟨none⟩ [] c7Good).store, ⟨none⟩,
        (DataApp.upload_claims_data stubSummarize stubBuild ⟨none⟩ [] c7Good).count,
        some (uploadErrorMsg "dup.csv")⟩ := by
  constructor
  · exact
      C7_failed_batch_isolation.1 stubSummarize stubBuild ⟨none⟩ [] c7Good c7BadParse []
        rfl (Or.inl rfl)
  · exact
      C7_failed_batch_isolation.2 stubSummarize stubBuild ⟨none⟩ [] c7Good c7DupFile []
        rfl (Or.inr ⟨[("A", [("claim_amount", "2")])], rfl, rfl, rfl⟩)

/- ===================== C10 ===================== -/

/-- C10 (confirmed).  In both variants, an upload whose files all parse
successfully but contain zero records performs no write, leaves the store,
the Vector Index and the summary-derived state exactly as they were, and
reports a processed-record count of zero with no error. -/
theorem C10_zero_record_upload :
    ∀ (s : List ClaimRecord → String) (b : String → VectorStore) (rag : RAGService)
      (store : Store) (files : List FileInput),
      (∀ f ∈ files, f.parsed = Except.ok []) →
      Backend.upload_claims_data s b rag store files = ⟨store, rag, 0, none⟩ ∧
      DataApp.upload_claims_data s b rag store files = ⟨store, rag, 0, none⟩ := by
  intro s b rag store files h
  constructor
  · unfold Backend.upload_claims_data
    rw [uploadLoop_all_empty upsertApply s b rag files h]
    rfl
  · unfold DataApp.upload_claims_data
    rw [uploadLoop_all_empty bulkInsertBatch s b rag files h]
    rfl

/-- Witness for C10: one parseable but empty file changes nothing in either
variant. -/
theorem C10_zero_record_upload_witness :
    Backend.upload_claims_data stubSummarize stubBuild ⟨none⟩ c2Store
        [⟨"empty.csv", Except.ok []⟩] = ⟨c2Store, ⟨none⟩, 0, none⟩ ∧
    DataApp.upload_claims_data stubSummarize stubBuild ⟨none⟩ c2Store
        [⟨"empty.csv", Except.ok []⟩] = ⟨c2Store, ⟨none⟩, 0, none⟩ := by
  exact
    C10_zero_record_upload stubSummarize stubBuild ⟨none⟩ c2Store
      [⟨"empty.csv", Except.ok []⟩]
      (by
        intro f hf
        rw [List.mem_singleton] at hf
        subst hf
        rfl)
